import Mathlib

/-!
Shallow embedding of the creatorpilot backend (`src/index.js`, two concatenated
variants, plus the middleware and model files) for checking the natural-language
specification.  The credential store is a list of accounts; Mongo queries
`findOne`/`findById`/`save` become list operations; bcrypt and jwt are modelled
as pure encode/compare functions; each Express handler becomes a function from
the store and the request data to an HTTP status, a response body, and the
updated store.
-/

namespace CreatorPilot

/-- Account record of the `User` Mongoose model: id, email, bcrypt password
hash, the two role flags and the profile fields (`name`, `bio`).  The model
file itself is not in the repository; the field set is taken from every use in
`src/index.js` and the role defaults (false at creation) from the spec's data
model, which fixes `isOwner`/`isAdmin` at creation or seed time. -/
structure Account where
  id : Nat
  email : String
  password : String
  isAdmin : Bool
  isOwner : Bool
  name : String
  bio : String
deriving DecidableEq, Repr

/-- The credential store: the `users` collection. -/
abbrev Store := List Account

/-- Mongoose `User.findById(i)`. -/
def findById (db : Store) (i : Nat) : Option Account :=
  db.find? (fun a => a.id == i)

/-- Mongoose `User.findOne({email})`. -/
def findOneByEmail (db : Store) (e : String) : Option Account :=
  db.find? (fun a => a.email == e)

/-- Mongoose `user.save()`: persist an in-place mutation, replacing the record
with the same id. -/
def save : Store → Account → Store
  | [], _ => []
  | a :: db, u => (if a.id == u.id then u else a) :: save db u

/-- Largest id present in the store. -/
def maxId (db : Store) : Nat :=
  db.foldr (fun a m => max a.id m) 0

/-- Id generated for a newly created account (opaque, unique). -/
def freshId (db : Store) : Nat := maxId db + 1

/-- Model of `bcrypt.hash(pw, 10)`: a one-way transform, modelled as an
injective tagged encoding. -/
def bcryptHash (pw : String) : String := "bcrypt-10-rounds:" ++ pw

/-- Model of `bcrypt.compare(pw, h)`: verification succeeds exactly when the
hash was produced from the plaintext. -/
def bcryptCompare (pw h : String) : Bool := h == bcryptHash pw

/-- Claims of a session token signed by variant 2 (`jwt.sign({userId, isAdmin,
isOwner}, secret, {expiresIn: 7d})`).  Signing and decoding are modelled as the
identity on the claims. -/
structure Claims where
  userId : Nat
  isAdmin : Bool
  isOwner : Bool
deriving DecidableEq, Repr

/-- Claims of a session token signed by variant 1's login (`jwt.sign({userId,
isAdmin}, ...)`): no `isOwner` claim. -/
structure ClaimsV1 where
  userId : Nat
  isAdmin : Bool
deriving DecidableEq, Repr

/-- Response body of `POST /api/register`. -/
inductive RegisterBody where
  | msg (message : String)
  | token (t : Claims)
deriving DecidableEq, Repr

/-- Does a register response body carry a session token? -/
def RegisterBody.hasToken : RegisterBody → Bool
  | .token _ => true
  | .msg _ => false

/-- Response body of `POST /api/login` (variant 2). -/
inductive LoginBody where
  | msg (message : String)
  | token (t : Claims)
deriving DecidableEq, Repr

/-- Response body of `POST /api/login` (variant 1). -/
inductive LoginBodyV1 where
  | msg (message : String)
  | token (t : ClaimsV1)
deriving DecidableEq, Repr

/-- Response body of `PUT /api/admin/toggle-admin/:userId`: either an error
message or `{message, user}` where `user` is the full stored record (the
handler does not strip any field before `res.json`). -/
inductive ToggleBody where
  | err (error : String)
  | ok (message : String) (user : Account)
deriving DecidableEq, Repr

/-- An account as returned by `User.find().select('-password')`: every field of
the stored record except the password hash. -/
structure PublicUser where
  id : Nat
  email : String
  isAdmin : Bool
  isOwner : Bool
  name : String
  bio : String
deriving DecidableEq, Repr

/-- `select('-password')` applied to one record. -/
def stripPassword (a : Account) : PublicUser :=
  { id := a.id, email := a.email, isAdmin := a.isAdmin, isOwner := a.isOwner,
    name := a.name, bio := a.bio }

/-- Response body of `GET /api/admin/users`. -/
inductive AdminUsersBody where
  | err (message : String)
  | users (us : List PublicUser)
deriving DecidableEq, Repr

/-- Response body of `PUT /api/profile`. -/
inductive ProfileBody where
  | err (error : String)
  | msg (message : String)
deriving DecidableEq, Repr

/-- Response body of `POST /api/generate-titles`. -/
inductive TitlesBody where
  | err (error : String)
  | titles (t : String)
deriving DecidableEq, Repr

/-- JS truthiness of `requestingUser?.isAdmin`: false when the lookup returned
null. -/
def actorIsAdmin (db : Store) (i : Nat) : Bool :=
  ((findById db i).map (fun a => a.isAdmin)).getD false

/-- JS truthiness of `requestingUser?.isOwner`: false when the lookup returned
null. -/
def actorIsOwner (db : Store) (i : Nat) : Bool :=
  ((findById db i).map (fun a => a.isOwner)).getD false

/-- Fresh account created by registration: `User.create({email, password})`
with the hash stored and the schema's role/profile defaults. -/
def newAccount (db : Store) (email password : String) : Account :=
  { id := freshId db, email := email, password := bcryptHash password,
    isAdmin := false, isOwner := false, name := "", bio := "" }

/-- `POST /api/register`, variant 1 (src/index.js lines 50-64): duplicate check,
explicit `bcrypt.hash`, `User.create`, then `201 {message: 'User created'}` —
no token in the response. -/
def registerV1 (db : Store) (email password : String) :
    (Nat × RegisterBody) × Store :=
  match findOneByEmail db email with
  | some _ => ((400, .msg "User already exists"), db)
  | none => ((201, .msg "User created"), db ++ [newAccount db email password])

/-- `POST /api/register`, variant 2 (src/index.js lines 229-255): duplicate
check, `User.create` (the schema hashes the password), re-fetch by email, sign
`{userId, isAdmin || false, isOwner || false}` and answer `201 {token}`. -/
def registerV2 (db : Store) (email password : String) :
    (Nat × RegisterBody) × Store :=
  match findOneByEmail db email with
  | some _ => ((400, .msg "User already exists"), db)
  | none =>
    let db1 := db ++ [newAccount db email password]
    match findOneByEmail db1 email with
    | some user =>
        ((201, .token { userId := user.id, isAdmin := user.isAdmin,
                        isOwner := user.isOwner }), db1)
    | none => ((500, .msg "Register error"), db1)

/-- `POST /api/login`, variant 1 (src/index.js lines 67-97): unknown email and
password mismatch both answer `400 {message: 'Invalid credentials'}`; on
success signs `{userId, isAdmin || false}`. -/
def loginV1 (db : Store) (email password : String) : Nat × LoginBodyV1 :=
  match findOneByEmail db email with
  | none => (400, .msg "Invalid credentials")
  | some user =>
    if bcryptCompare password user.password then
      (200, .token { userId := user.id, isAdmin := user.isAdmin })
    else (400, .msg "Invalid credentials")

/-- `POST /api/login`, variant 2 (src/index.js lines 260-287): unknown email
and password mismatch both answer `400 {message: 'Invalid credentials'}`; on
success signs `{userId, isAdmin || false, isOwner || false}`. -/
def loginV2 (db : Store) (email password : String) : Nat × LoginBody :=
  match findOneByEmail db email with
  | none => (400, .msg "Invalid credentials")
  | some user =>
    if bcryptCompare password user.password then
      (200, .token { userId := user.id, isAdmin := user.isAdmin,
                     isOwner := user.isOwner })
    else (400, .msg "Invalid credentials")

/-- `PUT /api/admin/toggle-admin/:userId`, variant 1 (src/index.js lines
156-174): actor check `!requestingUser?.isAdmin` → 403; missing target → 404;
otherwise toggle `user.isAdmin`, save, and answer `200 {message, user}` with
the full record.  No guard on the target's `isOwner`. -/
def toggleAdminV1 (db : Store) (actorId targetId : Nat) :
    (Nat × ToggleBody) × Store :=
  if actorIsAdmin db actorId = false then
    ((403, .err "Forbidden: Admins only"), db)
  else
    match findById db targetId with
    | none => ((404, .err "User not found"), db)
    | some user =>
      let toggled := { user with isAdmin := !user.isAdmin }
      ((200, .ok "User updated" toggled), save db toggled)

/-- `PUT /api/admin/toggle-admin/:userId`, variant 2 (src/index.js lines
349-373): actor check `!requestingUser?.isOwner` → 403; missing target → 404;
target `isOwner` → 403 `'Cannot change owner privileges'`; otherwise toggle
`user.isAdmin`, save, and answer `200 {message, user}` with the full record. -/
def toggleAdminV2 (db : Store) (actorId targetId : Nat) :
    (Nat × ToggleBody) × Store :=
  if actorIsOwner db actorId = false then
    ((403, .err "Forbidden: Only owner can manage admin roles"), db)
  else
    match findById db targetId with
    | none => ((404, .err "User not found"), db)
    | some user =>
      if user.isOwner then
        ((403, .err "Cannot change owner privileges"), db)
      else
        let toggled := { user with isAdmin := !user.isAdmin }
        ((200, .ok "User role updated" toggled), save db toggled)

/-- The `requireAdmin` middleware (src/unnamed/part_000 lines 197-212):
re-fetch the actor by the token's `userId` and require `isAdmin` on the current
stored record; the token's own `isAdmin` claim is never consulted. -/
def requireAdminCheck (db : Store) (c : Claims) : Bool :=
  actorIsAdmin db c.userId

/-- `GET /api/admin/users` (src/index.js lines 145-153 and 338-346):
`requireAuth` yields the token claims, `requireAdmin` re-checks the store, then
`User.find().select('-password')`. -/
def adminUsers (db : Store) (c : Claims) : Nat × AdminUsersBody :=
  if requireAdminCheck db c = false then
    (403, .err "Access denied. Admins only.")
  else
    (200, .users (db.map stripPassword))

/-- `PUT /api/profile` (src/index.js lines 426-440): fetch the caller's own
record, overwrite `name` and `bio`, save. -/
def updateProfile (db : Store) (c : Claims) (name bio : String) :
    (Nat × ProfileBody) × Store :=
  match findById db c.userId with
  | none => ((404, .err "User not found"), db)
  | some user =>
    let updated := { user with name := name, bio := bio }
    ((200, .msg "Profile updated"), save db updated)

/-- JS `String.prototype.trim()`: strip whitespace from both ends of the
string. -/
def jsTrim (s : String) : String :=
  ⟨((s.data.dropWhile Char.isWhitespace).reverse.dropWhile
      Char.isWhitespace).reverse⟩

/-- `POST /api/generate-titles` (src/index.js lines 443-471): reject with 400
when the transcript is missing, empty (falsy), or its trimmed length is below
20 (`!transcript || transcript.trim().length < 20`); otherwise call the
language model (passed in as `llm`) and answer 200. -/
def generateTitles (llm : String → String) (transcript : Option String) :
    Nat × TitlesBody :=
  match transcript with
  | none => (400, .err "Transcript is too short or missing.")
  | some t =>
    if t == "" || (jsTrim t).length < 20 then
      (400, .err "Transcript is too short or missing.")
    else
      (200, .titles (llm t))

/-- `windowMs: 60 * 1000` of the limiter configuration (src/index.js lines
25-30). -/
def windowMs : Nat := 60 * 1000

/-- `max: 10` of the limiter configuration (src/index.js lines 25-30). -/
def maxRequests : Nat := 10

/-- Per-client rate window: request count and window-start timestamp. -/
structure RateWindow where
  count : Nat
  windowStart : Nat
deriving DecidableEq, Repr

/-- Modelled from the spec: the admission algorithm of the `express-rate-limit`
dependency is not part of this repository; only its configuration
(`windowMs := 60000`, `max := 10`) is.  Per spec section 4.4 and the Rate
Window data model: if the window has elapsed the count resets and the request
is admitted; below the ceiling, increment and admit; otherwise reject with
`RateLimited`. -/
def tryAdmit (w : Option RateWindow) (now : Nat) : Bool × RateWindow :=
  match w with
  | none => (true, { count := 1, windowStart := now })
  | some w =>
    if w.windowStart + windowMs ≤ now then
      (true, { count := 1, windowStart := now })
    else if w.count < maxRequests then
      (true, { count := w.count + 1, windowStart := w.windowStart })
    else
      (false, w)

/-- Run a sequence of requests (timestamps) through the limiter, collecting the
admission decisions. -/
def runRequests (w : Option RateWindow) : List Nat → List Bool × Option RateWindow
  | [] => ([], w)
  | t :: ts =>
    let step := tryAdmit w t
    let rest := runRequests (some step.2) ts
    (step.1 :: rest.1, rest.2)

/-- The `isOwner` flag of the account stored under a given id, if any. -/
def ownerOf (db : Store) (i : Nat) : Option Bool :=
  (findById db i).map (fun a => a.isOwner)

/-- Example store, account 1: the owner (also an admin). -/
def owner1 : Account :=
  { id := 1, email := "owner@example.com", password := "h1",
    isAdmin := true, isOwner := true, name := "", bio := "" }

/-- Example store, account 2: an admin that is not the owner. -/
def admin2 : Account :=
  { id := 2, email := "admin@example.com", password := "h2",
    isAdmin := true, isOwner := false, name := "", bio := "" }

/-- Example store, account 3: a plain user. -/
def user3 : Account :=
  { id := 3, email := "user@example.com", password := "h3",
    isAdmin := false, isOwner := false, name := "", bio := "" }

/-- Example credential store with an owner, an admin and a plain user. -/
def exDb : Store := [owner1, admin2, user3]

/-- An account found by id carries that id. -/
theorem findById_id {db : Store} {i : Nat} {a : Account}
    (h : findById db i = some a) : a.id = i := by
  have := List.find?_some h
  simpa using this

/-- Lookup after `save`: the found record is replaced exactly when its id is
the saved record's id. -/
theorem findById_save (db : Store) (u : Account) (i : Nat) :
    findById (save db u) i
      = (findById db i).map (fun x => if x.id == u.id then u else x) := by
  induction db with
  | nil => rfl
  | cons a db ih =>
    simp only [save, findById, List.find?_cons] at ih ⊢
    by_cases hau : a.id = u.id
    · have hif : (if a.id == u.id then u else a) = u := by simp [hau]
      rw [hif]
      by_cases hai : a.id = i
      · have hu : (u.id == i) = true := by simp [← hau, hai]
        have ha : (a.id == i) = true := by simp [hai]
        simp only [hu, ha]
        simp [hau]
      · have hne : u.id ≠ i := hau ▸ hai
        have hu : (u.id == i) = false := by simpa using hne
        have ha : (a.id == i) = false := by simpa using hai
        simp only [hu, ha]
        exact ih
    · have hif : (if a.id == u.id then u else a) = a := by simp [hau]
      rw [hif]
      by_cases hai : a.id = i
      · have ha : (a.id == i) = true := by simp [hai]
        simp only [ha]
        simp [hau]
      · have ha : (a.id == i) = false := by simpa using hai
        simp only [ha]
        exact ih

/-- A successful lookup is preserved by appending records on the right. -/
theorem findById_append_some {db : Store} {i : Nat} {a : Account}
    (l : Store) (h : findById db i = some a) :
    findById (db ++ l) i = some a := by
  simp only [findById, List.find?_append] at *
  rw [h]
  rfl

/-- Every stored id is bounded by `maxId`. -/
theorem id_le_maxId {db : Store} {a : Account} (h : a ∈ db) :
    a.id ≤ maxId db := by
  induction db with
  | nil => cases h
  | cons b db ih =>
    rcases List.mem_cons.mp h with rfl | h2
    · simp [maxId, List.foldr_cons, Nat.le_max_left]
    · have := ih h2
      simp only [maxId, List.foldr_cons]
      exact le_trans this (Nat.le_max_right _ _)

/-- The generated id of a new account is not yet in the store. -/
theorem findById_freshId (db : Store) : findById db (freshId db) = none := by
  rw [findById, List.find?_eq_none]
  intro a ha
  have := id_le_maxId ha
  simp only [beq_iff_eq, freshId]
  omega

/-- Saving a record that keeps the id and `isOwner` flag of the record already
stored under that id leaves every `isOwner` flag in the store unchanged. -/
theorem ownerOf_save {db : Store} {u u2 : Account}
    (h : findById db u.id = some u2) (ho : u.isOwner = u2.isOwner) (i : Nat) :
    ownerOf (save db u) i = ownerOf db i := by
  rw [ownerOf, ownerOf, findById_save]
  cases hx : findById db i with
  | none => rfl
  | some x =>
    simp only [Option.map_some']
    by_cases hxu : x.id = u.id
    · have hxi : x.id = i := findById_id hx
      have hiu : i = u.id := hxi ▸ hxu
      have hx2 : x = u2 := by
        have h3 := hx
        rw [hiu] at h3
        rw [h] at h3
        exact (Option.some.inj h3).symm
      have hu2 : u2.id = u.id := findById_id h
      simp [hxu, hx2, hu2, ho]
    · simp [hxu]

/-- C1 counterexample: in variant 1 of `PUT /api/admin/toggle-admin/:userId`,
an authenticated actor whose current record has `isOwner = false` (but
`isAdmin = true`) is not rejected: the call proceeds past the actor check and
answers 200, refuting the claim that only owners proceed. -/
theorem toggleAdminV1_nonowner_admin_passes :
    actorIsOwner exDb 2 = false ∧ actorIsAdmin exDb 2 = true ∧
    (toggleAdminV1 exDb 2 3).1.1 = 200 := by decide

/-- C1 (amended): in variant 2 of `PUT /api/admin/toggle-admin/:userId` the
operation proceeds past the actor check only if the actor's current record has
`isOwner = true`: a non-owner actor (admin or not, or missing) receives 403
with the owner-gate message and the store is unchanged, and an owner actor
never receives that owner-gate rejection.  Variant 1 instead gates the actor
check on `isAdmin`. -/
theorem toggleAdminV2_owner_gate (db : Store) (a t : Nat) :
    (actorIsOwner db a = false →
      toggleAdminV2 db a t
        = ((403, .err "Forbidden: Only owner can manage admin roles"), db)) ∧
    (actorIsOwner db a = true →
      (toggleAdminV2 db a t).1.2
        ≠ ToggleBody.err "Forbidden: Only owner can manage admin roles") ∧
    (actorIsAdmin db a = false →
      toggleAdminV1 db a t = ((403, .err "Forbidden: Admins only"), db)) := by
  refine ⟨?_, ?_, ?_⟩
  · intro hfalse
    simp [toggleAdminV2, hfalse]
  · intro htrue
    simp only [toggleAdminV2, htrue]
    cases hft : findById db t with
    | none => simp
    | some u =>
      by_cases hou : u.isOwner
      · simp [hou]
      · simp [hou]
  · intro hfalse
    simp [toggleAdminV1, hfalse]

/-- Witness for `toggleAdminV2_owner_gate` at the example store: the non-owner
admin (id 2) is rejected by the owner gate, the owner (id 1) is not, and
variant 1 rejects the plain user (id 3). -/
theorem toggleAdminV2_owner_gate_witness :
    toggleAdminV2 exDb 2 3
      = ((403, .err "Forbidden: Only owner can manage admin roles"), exDb) ∧
    (toggleAdminV2 exDb 1 3).1.2
      ≠ ToggleBody.err "Forbidden: Only owner can manage admin roles" ∧
    toggleAdminV1 exDb 3 2 = ((403, .err "Forbidden: Admins only"), exDb) :=
  ⟨(toggleAdminV2_owner_gate exDb 2 3).1 (by decide),
   (toggleAdminV2_owner_gate exDb 1 3).2.1 (by decide),
   (toggleAdminV2_owner_gate exDb 3 2).2.2 (by decide)⟩

/-- C2 counterexample: in variant 1 of toggle-admin there is no guard on the
target's `isOwner`: an admin actor (id 2) toggling the owner (id 1, stored
with `isOwner = true`, `isAdmin = true`) receives 200, not Forbidden, and the
owner's `isAdmin` flag is flipped to false. -/
theorem toggleAdminV1_mutates_owner_target :
    ((findById exDb 1).map (fun a => a.isOwner)) = some true ∧
    ((findById exDb 1).map (fun a => a.isAdmin)) = some true ∧
    (toggleAdminV1 exDb 2 1).1.1 = 200 ∧
    ((findById (toggleAdminV1 exDb 2 1).2 1).map (fun a => a.isAdmin))
      = some false := by decide

/-- C2 (amended): in variant 2 of toggle-admin, whenever the target account
exists with `isOwner = true`, the response status is 403 and the store is left
unchanged, regardless of which actor invokes the call.  Variant 1 has no such
guard and will toggle an owner's `isAdmin`. -/
theorem toggleAdminV2_owner_target_forbidden (db : Store) (a t : Nat)
    (u : Account) (hu : findById db t = some u) (ho : u.isOwner = true) :
    (toggleAdminV2 db a t).1.1 = 403 ∧ (toggleAdminV2 db a t).2 = db := by
  by_cases hact : actorIsOwner db a
  · simp [toggleAdminV2, hact, hu, ho]
  · simp [toggleAdminV2, hact]

/-- Witness for `toggleAdminV2_owner_target_forbidden`: toggling the owner
(id 1) in the example store, invoked by the owner itself, is rejected with 403
and changes nothing. -/
theorem toggleAdminV2_owner_target_forbidden_witness :
    (toggleAdminV2 exDb 1 1).1.1 = 403 ∧ (toggleAdminV2 exDb 1 1).2 = exDb :=
  toggleAdminV2_owner_target_forbidden exDb 1 1 owner1 (by decide) (by decide)

/-- C3: the `requireAdmin` middleware guarding `GET /api/admin/users`
re-fetches the actor by the token's `userId` and decides on the stored
record's `isAdmin`, not on the token claims: an actor whose stored `isAdmin`
is false is rejected with 403 even when the token claim says `isAdmin = true`,
and an actor whose stored `isAdmin` is true gets the user list (password
stripped) even when the token claim says false. -/
theorem adminUsers_checks_stored_admin (db : Store) (c : Claims) (u : Account)
    (hu : findById db c.userId = some u) :
    (u.isAdmin = false → c.isAdmin = true →
      adminUsers db c = (403, AdminUsersBody.err "Access denied. Admins only.")) ∧
    (u.isAdmin = true →
      adminUsers db c = (200, AdminUsersBody.users (db.map stripPassword))) := by
  constructor
  · intro hstored _
    simp [adminUsers, requireAdminCheck, actorIsAdmin, hu, hstored]
  · intro hstored
    simp [adminUsers, requireAdminCheck, actorIsAdmin, hu, hstored]

/-- Witness for `adminUsers_checks_stored_admin`: in the example store the
plain user (id 3) presenting a token that claims `isAdmin = true` is rejected,
while the stored admin (id 2) presenting a token claiming `isAdmin = false`
succeeds. -/
theorem adminUsers_checks_stored_admin_witness :
    adminUsers exDb { userId := 3, isAdmin := true, isOwner := false }
      = (403, AdminUsersBody.err "Access denied. Admins only.") ∧
    adminUsers exDb { userId := 2, isAdmin := false, isOwner := false }
      = (200, AdminUsersBody.users (exDb.map stripPassword)) :=
  ⟨(adminUsers_checks_stored_admin exDb
      { userId := 3, isAdmin := true, isOwner := false } user3 (by decide)).1
      rfl rfl,
   (adminUsers_checks_stored_admin exDb
      { userId := 2, isAdmin := false, isOwner := false } admin2 (by decide)).2
      rfl⟩

/-- C4 counterexample: variant 1 of `POST /api/register` on a fresh email
answers 201 with the body `{message: 'User created'}` — the response carries
no session token at all, refuting the claim that every fresh registration
returns a token decoding to the new account id. -/
theorem registerV1_responds_without_token :
    (registerV1 [] "alice@example.com" "pw12345").1
      = (201, RegisterBody.msg "User created") ∧
    RegisterBody.hasToken (registerV1 [] "alice@example.com" "pw12345").1.2
      = false := by decide

/-- C4 (amended): variant 2 of `POST /api/register` on a fresh email answers
201 with a token whose claims decode to the newly created account's id (the
fresh id, not previously in the store); variant 1 answers 201 with only a
message and no token. -/
theorem registerV2_fresh_email_token (db : Store) (e p : String)
    (h : findOneByEmail db e = none) :
    registerV2 db e p
      = ((201, RegisterBody.token
            { userId := freshId db, isAdmin := false, isOwner := false }),
         db ++ [newAccount db e p]) ∧
    findById (db ++ [newAccount db e p]) (freshId db)
      = some (newAccount db e p) ∧
    findById db (freshId db) = none := by
  have hfind : findOneByEmail (db ++ [newAccount db e p]) e
      = some (newAccount db e p) := by
    rw [findOneByEmail, List.find?_append]
    rw [findOneByEmail] at h
    rw [h]
    simp [newAccount]
  refine ⟨?_, ?_, findById_freshId db⟩
  · simp only [registerV2, h]
    simp only [newAccount] at hfind ⊢
    rw [hfind]
  · rw [findById, List.find?_append]
    have h1 : findById db (freshId db) = none := findById_freshId db
    rw [findById] at h1
    rw [h1]
    simp [newAccount]

/-- Witness for `registerV2_fresh_email_token` on the empty store. -/
theorem registerV2_fresh_email_token_witness :
    registerV2 [] "alice@example.com" "pw12345"
      = ((201, RegisterBody.token
            { userId := 1, isAdmin := false, isOwner := false }),
         [newAccount [] "alice@example.com" "pw12345"]) ∧
    findById [newAccount [] "alice@example.com" "pw12345"] 1
      = some (newAccount [] "alice@example.com" "pw12345") ∧
    findById ([] : Store) 1 = none := by
  have h := registerV2_fresh_email_token [] "alice@example.com" "pw12345" rfl
  simpa [freshId, maxId] using h

/-- C7: for both login variants, an unknown email and a wrong password for an
existing email produce literally the same response: status 400 and the body
`{message: 'Invalid credentials'}`, so the caller cannot tell the two apart. -/
theorem login_invalid_credentials_uniform (db : Store) (e p : String) :
    (findOneByEmail db e = none →
      loginV2 db e p = (400, LoginBody.msg "Invalid credentials") ∧
      loginV1 db e p = (400, LoginBodyV1.msg "Invalid credentials")) ∧
    (∀ u, findOneByEmail db e = some u → bcryptCompare p u.password = false →
      loginV2 db e p = (400, LoginBody.msg "Invalid credentials") ∧
      loginV1 db e p = (400, LoginBodyV1.msg "Invalid credentials")) := by
  constructor
  · intro h
    constructor
    · simp [loginV2, h]
    · simp [loginV1, h]
  · intro u hu hcmp
    constructor
    · simp [loginV2, hu, hcmp]
    · simp [loginV1, hu, hcmp]

/-- Witness for `login_invalid_credentials_uniform`: in the example store a
login for an absent email and a login for the stored user with a wrong
password produce the identical 400 response, in both variants. -/
theorem login_invalid_credentials_uniform_witness :
    (loginV2 exDb "nobody@example.com" "pw"
        = (400, LoginBody.msg "Invalid credentials") ∧
      loginV1 exDb "nobody@example.com" "pw"
        = (400, LoginBodyV1.msg "Invalid credentials")) ∧
    (loginV2 exDb "user@example.com" "wrong"
        = (400, LoginBody.msg "Invalid credentials") ∧
      loginV1 exDb "user@example.com" "wrong"
        = (400, LoginBodyV1.msg "Invalid credentials")) :=
  ⟨(login_invalid_credentials_uniform exDb "nobody@example.com" "pw").1
      (by decide),
   (login_invalid_credentials_uniform exDb "user@example.com" "wrong").2
      user3 (by decide) (by decide)⟩

/-- Appending new records on the right does not change the `isOwner` flag
stored under an id that is already present. -/
theorem ownerOf_append {db : Store} (l : Store) {i : Nat}
    (h : (findById db i).isSome) : ownerOf (db ++ l) i = ownerOf db i := by
  obtain ⟨a, ha⟩ := Option.isSome_iff_exists.mp h
  rw [ownerOf, ownerOf, ha, findById_append_some l ha]

/-- Toggling the `isAdmin` flag of a stored record and saving it does not
change any stored `isOwner` flag. -/
theorem ownerOf_toggle_save {db : Store} {t : Nat} {u : Account}
    (hu : findById db t = some u) (i : Nat) :
    ownerOf (save db { u with isAdmin := !u.isAdmin }) i = ownerOf db i := by
  have hfind : findById db ({ u with isAdmin := !u.isAdmin } : Account).id
      = some u := by
    show findById db u.id = some u
    rw [findById_id hu]
    exact hu
  exact @ownerOf_save db { u with isAdmin := !u.isAdmin } u hfind rfl i

/-- Overwriting the profile fields of a stored record and saving it does not
change any stored `isOwner` flag. -/
theorem ownerOf_profile_save {db : Store} {t : Nat} {u : Account}
    (hu : findById db t = some u) (n b : String) (i : Nat) :
    ownerOf (save db { u with name := n, bio := b }) i = ownerOf db i := by
  have hfind : findById db ({ u with name := n, bio := b } : Account).id
      = some u := by
    show findById db u.id = some u
    rw [findById_id hu]
    exact hu
  exact @ownerOf_save db { u with name := n, bio := b } u hfind rfl i

/-- C5: no operation of the system mutates a stored account's `isOwner` flag:
for every account already in the store, its `isOwner` value after registration
(either variant), either toggle-admin variant, or a profile update equals its
value before.  Login and the transcript operations never write the credential
store at all (they are pure reads of it in this embedding). -/
theorem no_operation_mutates_isOwner (db : Store) (i : Nat)
    (h : (findById db i).isSome) :
    (∀ e p, ownerOf (registerV1 db e p).2 i = ownerOf db i) ∧
    (∀ e p, ownerOf (registerV2 db e p).2 i = ownerOf db i) ∧
    (∀ a t, ownerOf (toggleAdminV1 db a t).2 i = ownerOf db i) ∧
    (∀ a t, ownerOf (toggleAdminV2 db a t).2 i = ownerOf db i) ∧
    (∀ c n b, ownerOf (updateProfile db c n b).2 i = ownerOf db i) := by
  refine ⟨?_, ?_, ?_, ?_, ?_⟩
  · intro e p
    cases hfe : findOneByEmail db e with
    | some x => simp [registerV1, hfe]
    | none =>
      simp only [registerV1, hfe]
      exact ownerOf_append _ h
  · intro e p
    cases hfe : findOneByEmail db e with
    | some x => simp [registerV2, hfe]
    | none =>
      simp only [registerV2, hfe]
      cases hf2 : findOneByEmail (db ++ [newAccount db e p]) e with
      | some x =>
        simp only [hf2]
        exact ownerOf_append _ h
      | none =>
        simp only [hf2]
        exact ownerOf_append _ h
  · intro a t
    by_cases hact : actorIsAdmin db a = false
    · simp [toggleAdminV1, hact]
    · simp only [toggleAdminV1, if_neg hact]
      cases hft : findById db t with
      | none => simp
      | some u => exact ownerOf_toggle_save hft i
  · intro a t
    by_cases hact : actorIsOwner db a = false
    · simp [toggleAdminV2, hact]
    · simp only [toggleAdminV2, if_neg hact]
      cases hft : findById db t with
      | none => simp
      | some u =>
        by_cases hou : u.isOwner = true
        · simp [hou]
        · have hsave := ownerOf_toggle_save hft i
          simp only [hou, if_false]
          simpa [hou] using hsave
  · intro c n b
    simp only [updateProfile]
    cases hfc : findById db c.userId with
    | none => simp
    | some u => exact ownerOf_profile_save hfc n b i

/-- Witness for `no_operation_mutates_isOwner`: the owner's flag in the
example store survives a registration, both toggle-admin variants and a
profile update. -/
theorem no_operation_mutates_isOwner_witness :
    ownerOf (registerV1 exDb "new@example.com" "pw").2 1 = ownerOf exDb 1 ∧
    ownerOf (registerV2 exDb "new@example.com" "pw").2 1 = ownerOf exDb 1 ∧
    ownerOf (toggleAdminV1 exDb 2 1).2 1 = ownerOf exDb 1 ∧
    ownerOf (toggleAdminV2 exDb 1 3).2 1 = ownerOf exDb 1 ∧
    ownerOf (updateProfile exDb
      { userId := 1, isAdmin := true, isOwner := true } "n" "b").2 1
      = ownerOf exDb 1 := by
  have h := no_operation_mutates_isOwner exDb 1 (by decide)
  exact ⟨h.1 "new@example.com" "pw", h.2.1 "new@example.com" "pw",
    h.2.2.1 2 1, h.2.2.2.1 1 3,
    h.2.2.2.2 { userId := 1, isAdmin := true, isOwner := true } "n" "b"⟩

/-- C6: in variant 2 of toggle-admin, calling the operation twice in
succession on the same existing non-owner target, with an owner actor, yields
a store in which the target's `isAdmin` equals its original value: each call
performs `isAdmin := !isAdmin`. -/
theorem toggleAdminV2_twice_restores (db : Store) (a t : Nat) (u : Account)
    (hact : actorIsOwner db a = true)
    (ht : findById db t = some u) (ho : u.isOwner = false) :
    ((findById (toggleAdminV2 (toggleAdminV2 db a t).2 a t).2 t).map
        (fun x => x.isAdmin))
      = some u.isAdmin := by
  obtain ⟨ra, hra, hrao⟩ : ∃ ra, findById db a = some ra ∧ ra.isOwner = true := by
    rw [actorIsOwner] at hact
    cases hfa : findById db a with
    | none => rw [hfa] at hact; simp at hact
    | some x =>
      rw [hfa] at hact
      simp only [Option.map_some', Option.getD_some] at hact
      exact ⟨x, rfl, hact⟩
  have hat : a ≠ t := by
    intro hEq
    rw [hEq, ht] at hra
    have hrau : ra = u := (Option.some.inj hra).symm
    rw [hrau, ho] at hrao
    exact Bool.false_ne_true hrao
  have hraid : ra.id = a := findById_id hra
  have huid : u.id = t := findById_id ht
  have hnotf : ¬(actorIsOwner db a = false) := by
    rw [hact]
    simp
  have hnoto : ¬(u.isOwner = true) := by
    rw [ho]
    simp
  have hstep1 : (toggleAdminV2 db a t).2
      = save db { u with isAdmin := !u.isAdmin } := by
    simp only [toggleAdminV2, ht]
    rw [if_neg hnotf, if_neg hnoto]
  have hfind1 : findById (save db { u with isAdmin := !u.isAdmin }) t
      = some { u with isAdmin := !u.isAdmin } := by
    rw [findById_save, ht]
    simp
  have hact1 : actorIsOwner (save db { u with isAdmin := !u.isAdmin }) a
      = true := by
    rw [actorIsOwner, findById_save, hra]
    have hne : ¬(ra.id = ({ u with isAdmin := !u.isAdmin } : Account).id) := by
      show ¬(ra.id = u.id)
      rw [hraid, huid]
      exact hat
    simp [hne, hrao]
  have hnoto1 : ¬(({ u with isAdmin := !u.isAdmin } : Account).isOwner
      = true) := hnoto
  have hnotf1 : ¬(actorIsOwner (save db { u with isAdmin := !u.isAdmin }) a
      = false) := by
    rw [hact1]
    simp
  have hstep2 : (toggleAdminV2 (save db { u with isAdmin := !u.isAdmin }) a t).2
      = save (save db { u with isAdmin := !u.isAdmin })
          { u with isAdmin := !(!u.isAdmin) } := by
    simp only [toggleAdminV2, hfind1]
    rw [if_neg hnotf1, if_neg hnoto1]
  have hfind2 : findById (save (save db { u with isAdmin := !u.isAdmin })
        { u with isAdmin := !(!u.isAdmin) }) t
      = some { u with isAdmin := !(!u.isAdmin) } := by
    rw [findById_save, hfind1]
    simp
  rw [hstep1, hstep2, hfind2]
  simp

/-- Witness for `toggleAdminV2_twice_restores`: in the example store the owner
toggles the plain user (id 3) twice; the user's `isAdmin` is false again. -/
theorem toggleAdminV2_twice_restores_witness :
    ((findById (toggleAdminV2 (toggleAdminV2 exDb 1 3).2 1 3).2 3).map
        (fun x => x.isAdmin))
      = some false := by
  have h := toggleAdminV2_twice_restores exDb 1 3 user3 (by decide)
    (by decide) rfl
  simpa using h

/-- C8: the admission controller with the repository's configuration
(`windowMs = 60000`, `max = 10`) never lets the per-client count exceed 10:
a request inside the window with the count at the ceiling is rejected and
leaves the window unchanged, a request after the window has elapsed is
admitted with a fresh count of 1, and concretely, of 11 requests in the same
minute the 11th is rejected while the first request of the next window is
admitted. -/
theorem rate_limiter_window_bound (w : RateWindow) (now : Nat) :
    (w.count ≤ maxRequests → ((tryAdmit (some w) now).2).count ≤ maxRequests) ∧
    (now < w.windowStart + windowMs → w.count = maxRequests →
      (tryAdmit (some w) now).1 = false ∧ (tryAdmit (some w) now).2 = w) ∧
    (w.windowStart + windowMs ≤ now →
      (tryAdmit (some w) now).1 = true ∧
      (tryAdmit (some w) now).2 = { count := 1, windowStart := now }) ∧
    (runRequests none (List.replicate 11 0 ++ [60000])).1
      = List.replicate 10 true ++ [false, true] := by
  refine ⟨?_, ?_, ?_, by decide⟩
  · intro hc
    by_cases helapsed : w.windowStart + windowMs ≤ now
    · simp [tryAdmit, helapsed, maxRequests]
    · by_cases hlt : w.count < maxRequests
      · simp only [tryAdmit, if_neg helapsed, if_pos hlt]
        omega
      · simp only [tryAdmit, if_neg helapsed, if_neg hlt]
        exact hc
  · intro hwin hmax
    have h1 : ¬(w.windowStart + windowMs ≤ now) := by omega
    have h2 : ¬(w.count < maxRequests) := by omega
    simp [tryAdmit, h1, h2]
  · intro helapsed
    simp [tryAdmit, helapsed]

/-- Witness for `rate_limiter_window_bound`: a full window at count 10 rejects
a request at time 5 unchanged, and admits a request at time 60000 with a fresh
window. -/
theorem rate_limiter_window_bound_witness :
    ((tryAdmit (some { count := 10, windowStart := 0 }) 5).1 = false ∧
      (tryAdmit (some { count := 10, windowStart := 0 }) 5).2
        = { count := 10, windowStart := 0 }) ∧
    (tryAdmit (some { count := 10, windowStart := 0 }) 60000).1 = true ∧
    (tryAdmit (some { count := 10, windowStart := 0 }) 60000).2
      = { count := 1, windowStart := 60000 } :=
  ⟨(rate_limiter_window_bound { count := 10, windowStart := 0 } 5).2.1
      (by decide) rfl,
   (rate_limiter_window_bound { count := 10, windowStart := 0 } 60000).2.2.1
      (by decide)⟩

/-- C9 counterexample: the transcript `"abcdefghijklmnopqrs "` (19 letters and
a trailing space) has 20 characters as supplied, yet `POST
/api/generate-titles` rejects it with 400, because the handler measures
`transcript.trim().length`: the boundary is not at 20 characters of the
supplied transcript. -/
theorem generateTitles_twenty_chars_rejected :
    ("abcdefghijklmnopqrs " : String).length = 20 ∧
    (generateTitles (fun _ => "") (some "abcdefghijklmnopqrs ")).1 = 400 := by
  decide

/-- C9 (amended): the boundary of `POST /api/generate-titles` lies at 20
characters of the *trimmed* transcript: a supplied transcript whose trimmed
length is below 20 (or a missing transcript) is rejected with 400, and one
whose trimmed length is at least 20 proceeds to a 200 response. -/
theorem generateTitles_trim_boundary (llm : String → String) (t : String) :
    ((jsTrim t).length < 20 → (generateTitles llm (some t)).1 = 400) ∧
    (20 ≤ (jsTrim t).length →
      generateTitles llm (some t) = (200, TitlesBody.titles (llm t))) ∧
    (generateTitles llm none).1 = 400 := by
  refine ⟨?_, ?_, rfl⟩
  · intro hlt
    by_cases hemp : (t == "") = true
    · simp [generateTitles, hemp]
    · simp [generateTitles, hemp, hlt]
  · intro hge
    have hne : (t == "") = false := by
      cases hb : (t == "") with
      | false => rfl
      | true =>
        have ht0 : t = "" := eq_of_beq hb
        rw [ht0] at hge
        exact absurd hge (by decide)
    have hnlt : ¬((jsTrim t).length < 20) := by omega
    simp [generateTitles, hne, hnlt]

/-- Witness for `generateTitles_trim_boundary`: a transcript trimming to 19
characters is rejected, one trimming to 20 succeeds. -/
theorem generateTitles_trim_boundary_witness :
    (generateTitles (fun _ => "T") (some "abcdefghijklmnopqrs ")).1 = 400 ∧
    generateTitles (fun _ => "T") (some "abcdefghijklmnopqrst")
      = (200, TitlesBody.titles "T") :=
  ⟨(generateTitles_trim_boundary (fun _ => "T") "abcdefghijklmnopqrs ").1
      (by decide),
   (generateTitles_trim_boundary (fun _ => "T") "abcdefghijklmnopqrst").2.1
      (by decide)⟩

/-- C10: on success (status 200) either toggle-admin variant answers with the
complete stored target record — `res.json({message, user})` with the account
as saved, its `password` hash field equal to the stored hash — whereas
`GET /api/admin/users` on success answers with the records passed through
`stripPassword` (`select('-password')`), which carry no password field. -/
theorem toggleAdmin_returns_full_record (db : Store) (a t : Nat) (u : Account)
    (hu : findById db t = some u) :
    ((toggleAdminV2 db a t).1.1 = 200 →
      (toggleAdminV2 db a t).1.2
        = ToggleBody.ok "User role updated" { u with isAdmin := !u.isAdmin } ∧
      ({ u with isAdmin := !u.isAdmin } : Account).password = u.password ∧
      findById (toggleAdminV2 db a t).2 t
        = some { u with isAdmin := !u.isAdmin }) ∧
    ((toggleAdminV1 db a t).1.1 = 200 →
      (toggleAdminV1 db a t).1.2
        = ToggleBody.ok "User updated" { u with isAdmin := !u.isAdmin } ∧
      ({ u with isAdmin := !u.isAdmin } : Account).password = u.password) ∧
    (∀ c, (adminUsers db c).1 = 200 →
      (adminUsers db c).2 = AdminUsersBody.users (db.map stripPassword)) := by
  refine ⟨?_, ?_, ?_⟩
  · intro h200
    by_cases hact : actorIsOwner db a = false
    · simp [toggleAdminV2, hact] at h200
    · by_cases hou : u.isOwner = true
      · simp [toggleAdminV2, if_neg hact, hu, hou] at h200
      · have hbody : toggleAdminV2 db a t
            = ((200, ToggleBody.ok "User role updated"
                  { u with isAdmin := !u.isAdmin }),
               save db { u with isAdmin := !u.isAdmin }) := by
          simp only [toggleAdminV2, hu]
          rw [if_neg hact, if_neg hou]
        rw [hbody]
        refine ⟨rfl, rfl, ?_⟩
        rw [findById_save, hu]
        simp
  · intro h200
    by_cases hact : actorIsAdmin db a = false
    · simp [toggleAdminV1, hact] at h200
    · have hbody : toggleAdminV1 db a t
          = ((200, ToggleBody.ok "User updated"
                { u with isAdmin := !u.isAdmin }),
             save db { u with isAdmin := !u.isAdmin }) := by
        simp only [toggleAdminV1, hu]
        rw [if_neg hact]
      rw [hbody]
      exact ⟨rfl, rfl⟩
  · intro c h200
    by_cases hreq : requireAdminCheck db c = false
    · simp [adminUsers, hreq] at h200
    · rw [adminUsers, if_neg hreq]

/-- Witness for `toggleAdmin_returns_full_record` on the example store: the
owner toggling the plain user in variant 2, the admin toggling the plain user
in variant 1, and the admin listing the users. -/
theorem toggleAdmin_returns_full_record_witness :
    (toggleAdminV2 exDb 1 3).1.2
      = ToggleBody.ok "User role updated" { user3 with isAdmin := true } ∧
    (toggleAdminV1 exDb 2 3).1.2
      = ToggleBody.ok "User updated" { user3 with isAdmin := true } ∧
    (adminUsers exDb { userId := 2, isAdmin := true, isOwner := false }).2
      = AdminUsersBody.users (exDb.map stripPassword) := by
  have h1 := toggleAdmin_returns_full_record exDb 1 3 user3 (by decide)
  have h2 := toggleAdmin_returns_full_record exDb 2 3 user3 (by decide)
  refine ⟨?_, ?_, ?_⟩
  · exact (h1.1 (by decide)).1
  · exact (h2.2.1 (by decide)).1
  · exact h2.2.2 { userId := 2, isAdmin := true, isOwner := false } (by decide)

end CreatorPilot
